import Mathlib

/-!
Verification of the PackagePulse health-scoring and upgrade-planning core.

This file is a shallow embedding of the decision logic found in
internal/providers/depsdev (ComputeHealthMetrics) and internal/tools
(HandleUpgradePlan, computeVulnSummary, checkBreakingChanges,
containsIgnoreCase, toLower, findInString) of the PackagePulse repository.

Modelling conventions:
- Go strings are byte sequences; wherever the code inspects individual
  bytes (version strings, severity score strings, message bodies built
  with Sprintf) we model them as lists of byte values (GoStr).  Strings
  the code only ever compares for equality against ASCII literals
  (link labels, maintenance levels, priorities, package identifiers)
  are modelled as Lean strings.  All literals in scope are ASCII, where
  the byte encoding coincides with the code-point sequence.
- Go time.Time is modelled as an integer number of nanoseconds, with 0
  standing for the Go zero time, so that t.IsZero becomes t = 0 and
  a.After b becomes a > b.  time.Since t is now - t for an explicit
  observation instant now, which the embedding threads as a parameter.
  The int conversion of Hours divided by 24 truncates toward zero, which
  we model as exact truncated integer division by the nanoseconds of a
  day (exact for every duration the float computation represents
  exactly).
- float64 scores: every value the scoring code can produce is a small
  integer (a sum of values in 0..40), on which float64 arithmetic and
  comparisons are exact, so the score is modelled as a rational number.
- Collaborator calls are explicit inputs: the vulnerability query result
  is an Option (none models a failed query, whose response pointer is
  nil), and the metadata fetch result likewise.  The response cache and
  logging are outside the scored core and not modelled.
-/

attribute [local semireducible] Rat.add

namespace PackagePulse

/-- Go strings as byte sequences (each entry one byte value). -/
abbrev GoStr := List Nat

/-- Byte encoding of an ASCII Lean string literal.  Every literal used in
this development is ASCII, so code points and bytes coincide. -/
def gostr (s : String) : GoStr := s.data.map Char.toNat

/-- tools.go toLower: byte-wise ASCII lowercasing (bytes 65..90 get 32 added,
all other bytes pass through unchanged). -/
def toLower (s : GoStr) : GoStr :=
  s.map fun c => if 65 ≤ c ∧ c ≤ 90 then c + 32 else c

/-- tools.go findInString: substring search; an empty pattern always
matches, a pattern longer than the text never does, otherwise every
start offset 0..(len s - len substr) is tried. -/
def findInString (s substr : GoStr) : Bool :=
  if substr.length = 0 then true
  else if s.length < substr.length then false
  else (List.range (s.length - substr.length + 1)).any
    fun i => decide ((s.drop i).take substr.length = substr)

/-- tools.go containsIgnoreCase: lowercase both arguments, then search. -/
def containsIgnoreCase (s substr : GoStr) : Bool :=
  findInString (toLower s) (toLower substr)

/-- osv.Severity: one severity entry of a vulnerability record.  The code
only ever reads the Score field. -/
structure Severity where
  typ : String
  score : GoStr
deriving DecidableEq

/-- osv.Vulnerability restricted to the fields the planner reads.  The id
and summary fields are carried along but never inspected. -/
structure Vulnerability where
  vid : String
  summary : String
  severity : List Severity
deriving DecidableEq

/-- tools.VulnSummary: the five severity counters. -/
structure VulnSummary where
  critical : Nat
  high : Nat
  medium : Nat
  low : Nat
  unknown : Nat
deriving DecidableEq

/-- The severity string the classifier looks at: the Score of the first
severity entry, or the literal "unknown" when the list is absent/empty. -/
def severityOf (v : Vulnerability) : GoStr :=
  match v.severity with
  | [] => gostr "unknown"
  | s :: _ => s.score

/-- One iteration of the loop body of tools.go computeVulnSummary: bump
exactly one counter according to the switch over containsIgnoreCase. -/
def bumpSummary (acc : VulnSummary) (v : Vulnerability) : VulnSummary :=
  let severity := severityOf v
  if containsIgnoreCase severity (gostr "critical") then
    { acc with critical := acc.critical + 1 }
  else if containsIgnoreCase severity (gostr "high") then
    { acc with high := acc.high + 1 }
  else if containsIgnoreCase severity (gostr "medium") then
    { acc with medium := acc.medium + 1 }
  else if containsIgnoreCase severity (gostr "low") then
    { acc with low := acc.low + 1 }
  else
    { acc with unknown := acc.unknown + 1 }

/-- tools.go computeVulnSummary: fold the loop body over the list,
starting from all-zero counters. -/
def computeVulnSummary (vulns : List Vulnerability) : VulnSummary :=
  vulns.foldl bumpSummary ⟨0, 0, 0, 0, 0⟩

/-- The five buckets of the severity classifier. -/
inductive SeverityBucket
  | critical
  | high
  | medium
  | low
  | unknown
deriving DecidableEq

/-- The bucket a single vulnerability falls into, by the same switch (same
tests, same precedence) as the loop body of computeVulnSummary. -/
def bucketOf (v : Vulnerability) : SeverityBucket :=
  let severity := severityOf v
  if containsIgnoreCase severity (gostr "critical") then .critical
  else if containsIgnoreCase severity (gostr "high") then .high
  else if containsIgnoreCase severity (gostr "medium") then .medium
  else if containsIgnoreCase severity (gostr "low") then .low
  else .unknown

/-- Bumping the counter named by a bucket. -/
def applyBucket (b : SeverityBucket) (acc : VulnSummary) : VulnSummary :=
  match b with
  | .critical => { acc with critical := acc.critical + 1 }
  | .high => { acc with high := acc.high + 1 }
  | .medium => { acc with medium := acc.medium + 1 }
  | .low => { acc with low := acc.low + 1 }
  | .unknown => { acc with unknown := acc.unknown + 1 }

/-- depsdev.Link: a labeled external URL. -/
structure Link where
  label : String
  url : String
deriving DecidableEq

/-- depsdev.VersionInfo restricted to the fields ComputeHealthMetrics
reads: version string, publish instant (nanoseconds, 0 = Go zero time),
the is-default flag, and the license identifier list (only its length is
ever used). -/
structure VersionInfo where
  version : GoStr
  publishedAt : Int
  isDefault : Bool
  licenses : List String
deriving DecidableEq

/-- depsdev.PackageKey. -/
structure PackageKey where
  system : String
  name : String
deriving DecidableEq

/-- depsdev.PackageInfo. -/
structure PackageInfo where
  packageKey : PackageKey
  versions : List VersionInfo
  links : List Link
deriving DecidableEq

/-- depsdev.HealthMetrics, with the representation conventions above
(score as a rational, instants as integer nanoseconds). -/
structure HealthMetrics where
  packageName : String
  ecosystem : String
  latestVersion : GoStr
  versionCount : Nat
  lastPublished : Int
  daysSinceUpdate : Int
  hasRepository : Bool
  hasDocumentation : Bool
  licenseCount : Nat
  maintenanceScore : ℚ
  maintenanceLevel : String
  recommendation : String
deriving DecidableEq

/-- Nanoseconds in 24 hours, the divisor of the days-since-update
computation. -/
def nsPerDay : Int := 86400000000000

/-- The recency component of the maintenance score (client.go, the first
if-chain over DaysSinceUpdate). -/
def recencyPoints (d : Int) : ℚ :=
  if d ≤ 30 then 40
  else if d ≤ 90 then 30
  else if d ≤ 180 then 20
  else if d ≤ 365 then 10
  else 0

/-- The version-cadence component of the maintenance score (client.go,
the if-chain over VersionCount). -/
def cadencePoints (n : Nat) : ℚ :=
  if n ≥ 50 then 20
  else if n ≥ 20 then 15
  else if n ≥ 10 then 10
  else if n ≥ 5 then 5
  else 0

/-- The full maintenance score: the five weighted components summed, as
the sequential score updates of client.go accumulate them. -/
def maintenanceScoreOf (days : Int) (versionCount : Nat)
    (hasRepo hasDoc : Bool) (licenseCount : Nat) : ℚ :=
  recencyPoints days + cadencePoints versionCount
    + (if hasRepo then 20 else 0)
    + (if hasDoc then 10 else 0)
    + (if 0 < licenseCount then 10 else 0)

/-- The level/recommendation if-chain of client.go over the score. -/
def levelAndRecommendation (score : ℚ) : String × String :=
  if score ≥ 80 then
    ("excellent", "This package is actively maintained with good development practices.")
  else if score ≥ 60 then
    ("good", "Package shows regular maintenance and good health indicators.")
  else if score ≥ 40 then
    ("fair", "Package is maintained but may have slower update cycles. Review before use.")
  else if score ≥ 20 then
    ("poor", "WARNING: Package shows signs of poor maintenance. Consider alternatives.")
  else
    ("critical", "CRITICAL: Package appears abandoned or unmaintained. Strongly consider alternatives.")

/-- One iteration of the version-scan loop of ComputeHealthMetrics: the
accumulator carries (latest version, license count, latest publish
instant); a flagged record overwrites the first two, and a strictly
later publish instant overwrites the third. -/
def versionScanStep (acc : GoStr × Nat × Int) (v : VersionInfo) :
    GoStr × Nat × Int :=
  let lvlc := if v.isDefault then (v.version, v.licenses.length) else (acc.1, acc.2.1)
  let lp := if v.publishedAt > acc.2.2 then v.publishedAt else acc.2.2
  (lvlc.1, lvlc.2, lp)

/-- The version scan of ComputeHealthMetrics, starting from the Go zero
values (empty string, 0, zero time). -/
def scanVersions (vs : List VersionInfo) : GoStr × Nat × Int :=
  vs.foldl versionScanStep ([], 0, 0)

/-- depsdev.ComputeHealthMetrics.  The observation instant now is the
explicit stand-in for the time.Now reading inside time.Since. -/
def computeHealthMetrics (now : Int) (pkg : PackageInfo) : HealthMetrics :=
  let scan := scanVersions pkg.versions
  let latestVersion := scan.1
  let licenseCount := scan.2.1
  let latestPub := scan.2.2
  let days : Int := if latestPub = 0 then 0 else (now - latestPub).tdiv nsPerDay
  let hasRepo := pkg.links.any fun l => l.label == "SOURCE_REPO" || l.label == "REPOSITORY"
  let hasDoc := pkg.links.any fun l => l.label == "DOCUMENTATION"
  let score := maintenanceScoreOf days pkg.versions.length hasRepo hasDoc licenseCount
  let lr := levelAndRecommendation score
  { packageName := pkg.packageKey.name
    ecosystem := pkg.packageKey.system
    latestVersion := latestVersion
    versionCount := pkg.versions.length
    lastPublished := latestPub
    daysSinceUpdate := days
    hasRepository := hasRepo
    hasDocumentation := hasDoc
    licenseCount := licenseCount
    maintenanceScore := score
    maintenanceLevel := lr.1
    recommendation := lr.2 }

/-- tools.go checkBreakingChanges: false when either string is empty,
otherwise compare the first bytes. -/
def checkBreakingChanges (current latest : GoStr) : Bool :=
  match current, latest with
  | [], _ => false
  | _, [] => false
  | c :: _, l :: _ => c != l

/-- tools.UpgradePlanInput. -/
structure UpgradePlanInput where
  ecosystem : String
  packageName : String
  currentVersion : GoStr
deriving DecidableEq

/-- tools.UpgradePlanOutput. -/
structure UpgradePlanOutput where
  packageName : String
  ecosystem : String
  currentVersion : GoStr
  latestVersion : GoStr
  isUpToDate : Bool
  hasVulnerabilities : Bool
  vulnerabilityCount : Nat
  maintenanceLevel : String
  maintenanceScore : ℚ
  daysSinceUpdate : Int
  priority : String
  recommendation : GoStr
  upgradePath : List GoStr
  breakingChanges : Bool
  vulnerabilitySummary : Option VulnSummary
deriving DecidableEq

/-- Decimal rendering of a natural counter, as Sprintf %d prints it. -/
def natStr (n : Nat) : GoStr := gostr (toString n)

/-- Decimal rendering of an integer, as Sprintf %d prints it. -/
def intStr (i : Int) : GoStr := gostr (toString i)

/-- Rendering of the maintenance score as Sprintf %.1f prints it.  Every
reachable score is an integer (a sum of multiples of 5), for which %.1f
prints the integer digits followed by ".0". -/
def scoreStr (q : ℚ) : GoStr := gostr (toString q.num) ++ gostr ".0"

/-- The successful branch of HandleUpgradePlan (tools.go): everything
after validation and a successful metadata fetch.  vulnResp is the
vulnerability query outcome, none standing for a failed query (nil
response), which contributes no vulnerabilities. -/
def mkPlan (input : UpgradePlanInput) (vulnResp : Option (List Vulnerability))
    (p : PackageInfo) (now : Int) : UpgradePlanOutput :=
  let vulns := vulnResp.getD []
  let hasVulns : Bool := decide (0 < vulns.length)
  let vulnCount : Nat := if hasVulns then vulns.length else 0
  let vulnSummary : Option VulnSummary :=
    if hasVulns then some (computeVulnSummary vulns) else none
  let m := computeHealthMetrics now p
  let isUp : Bool := decide (input.currentVersion = m.latestVersion)
  let breaking := checkBreakingChanges input.currentVersion m.latestVersion
  let pr : String × GoStr :=
    if hasVulns then
      let criticalCount := match vulnSummary with
        | some s => s.critical
        | none => 0
      let highCount := match vulnSummary with
        | some s => s.high
        | none => 0
      ("URGENT",
        if 0 < criticalCount then
          gostr "CRITICAL: Upgrade immediately! Found " ++ natStr criticalCount
            ++ gostr " critical vulnerabilities in current version."
        else if 0 < highCount then
          gostr "URGENT: Upgrade to " ++ m.latestVersion ++ gostr " to address "
            ++ natStr highCount ++ gostr " high-severity vulnerabilities."
        else
          gostr "URGENT: Upgrade to " ++ m.latestVersion ++ gostr " to address "
            ++ natStr vulnCount ++ gostr " known vulnerabilities.")
    else if isUp then
      ("OK",
        if m.maintenanceLevel == "poor" || m.maintenanceLevel == "critical" then
          gostr "On latest version, but package shows " ++ gostr m.maintenanceLevel
            ++ gostr " maintenance. Consider alternatives."
        else
          gostr "Already on latest version. No action needed.")
    else
      if m.maintenanceLevel == "poor" || m.maintenanceLevel == "critical" then
        ("WARNING",
          gostr "WARNING: Package shows " ++ gostr m.maintenanceLevel
            ++ gostr " maintenance (score: " ++ scoreStr m.maintenanceScore
            ++ gostr "). Upgrade to " ++ m.latestVersion
            ++ gostr " available, but consider package alternatives.")
      else if 180 < m.daysSinceUpdate then
        ("LOW",
          gostr "Upgrade available (" ++ m.latestVersion
            ++ gostr "), but no urgent issues. Current version is "
            ++ intStr m.daysSinceUpdate ++ gostr " days old.")
      else if breaking then
        ("MEDIUM",
          gostr "Upgrade to " ++ m.latestVersion
            ++ gostr " recommended, but may contain breaking changes. Review changelog before upgrading.")
      else
        ("RECOMMENDED",
          gostr "Upgrade to " ++ m.latestVersion
            ++ gostr " recommended for latest features and improvements.")
  { packageName := input.packageName
    ecosystem := input.ecosystem
    currentVersion := input.currentVersion
    latestVersion := m.latestVersion
    isUpToDate := isUp
    hasVulnerabilities := hasVulns
    vulnerabilityCount := vulnCount
    maintenanceLevel := m.maintenanceLevel
    maintenanceScore := m.maintenanceScore
    daysSinceUpdate := m.daysSinceUpdate
    priority := pr.1
    recommendation := pr.2
    upgradePath := [input.currentVersion, m.latestVersion]
    breakingChanges := breaking
    vulnerabilitySummary := vulnSummary }

/-- tools.go HandleUpgradePlan as a result-valued function: validation
failure and metadata-fetch failure give the error branch (the Go code
returns an IsError tool result with the corresponding message; the
wrapped collaborator error text is elided), success gives the plan. -/
def planUpgrade (input : UpgradePlanInput) (vulnResp : Option (List Vulnerability))
    (pkgInfo : Option PackageInfo) (now : Int) : Except String UpgradePlanOutput :=
  if input.ecosystem = "" ∨ input.packageName = "" ∨ input.currentVersion = [] then
    .error "ecosystem, package, and current_version are required"
  else
    match pkgInfo with
    | none => .error "Failed to query package info"
    | some p => .ok (mkPlan input vulnResp p now)

/-- The last is-default-flagged record of a version list, matching the
overwrite behaviour of the version scan. -/
def lastFlagged (vs : List VersionInfo) : Option VersionInfo :=
  vs.foldl (fun acc v => if v.isDefault then some v else acc) none

lemma chm_score_eq (now : Int) (pkg : PackageInfo) :
    (computeHealthMetrics now pkg).maintenanceScore
      = maintenanceScoreOf (computeHealthMetrics now pkg).daysSinceUpdate
          (computeHealthMetrics now pkg).versionCount
          (computeHealthMetrics now pkg).hasRepository
          (computeHealthMetrics now pkg).hasDocumentation
          (computeHealthMetrics now pkg).licenseCount := rfl

lemma chm_level_eq (now : Int) (pkg : PackageInfo) :
    (computeHealthMetrics now pkg).maintenanceLevel
      = (levelAndRecommendation (computeHealthMetrics now pkg).maintenanceScore).1 := rfl

lemma chm_rec_eq (now : Int) (pkg : PackageInfo) :
    (computeHealthMetrics now pkg).recommendation
      = (levelAndRecommendation (computeHealthMetrics now pkg).maintenanceScore).2 := rfl

lemma recencyPoints_nonneg (d : Int) : 0 ≤ recencyPoints d := by
  unfold recencyPoints; split_ifs <;> norm_num

lemma recencyPoints_le (d : Int) : recencyPoints d ≤ 40 := by
  unfold recencyPoints; split_ifs <;> norm_num

lemma cadencePoints_nonneg (n : Nat) : 0 ≤ cadencePoints n := by
  unfold cadencePoints; split_ifs <;> norm_num

lemma cadencePoints_le (n : Nat) : cadencePoints n ≤ 20 := by
  unfold cadencePoints; split_ifs <;> norm_num

lemma maintenanceScoreOf_nonneg (d : Int) (n : Nat) (r dc : Bool) (lc : Nat) :
    0 ≤ maintenanceScoreOf d n r dc lc := by
  unfold maintenanceScoreOf
  have h1 := recencyPoints_nonneg d
  have h2 := cadencePoints_nonneg n
  split_ifs <;> linarith

lemma maintenanceScoreOf_le (d : Int) (n : Nat) (r dc : Bool) (lc : Nat) :
    maintenanceScoreOf d n r dc lc ≤ 100 := by
  unfold maintenanceScoreOf
  have h1 := recencyPoints_le d
  have h2 := cadencePoints_le n
  split_ifs <;> linarith

/-- C1: the maintenance score is the sum of the five weighted components
(recency at most 40, version cadence at most 20, repository 20,
documentation 10, license 10), each contributing a non-negative amount,
and the total always lies in the closed interval from 0 to 100. -/
theorem c1_maintenance_score_in_range (now : Int) (pkg : PackageInfo) :
    (computeHealthMetrics now pkg).maintenanceScore
      = recencyPoints (computeHealthMetrics now pkg).daysSinceUpdate
        + cadencePoints (computeHealthMetrics now pkg).versionCount
        + (if (computeHealthMetrics now pkg).hasRepository then 20 else 0)
        + (if (computeHealthMetrics now pkg).hasDocumentation then 10 else 0)
        + (if 0 < (computeHealthMetrics now pkg).licenseCount then 10 else 0)
    ∧ 0 ≤ recencyPoints (computeHealthMetrics now pkg).daysSinceUpdate
    ∧ recencyPoints (computeHealthMetrics now pkg).daysSinceUpdate ≤ 40
    ∧ 0 ≤ cadencePoints (computeHealthMetrics now pkg).versionCount
    ∧ cadencePoints (computeHealthMetrics now pkg).versionCount ≤ 20
    ∧ 0 ≤ (computeHealthMetrics now pkg).maintenanceScore
    ∧ (computeHealthMetrics now pkg).maintenanceScore ≤ 100 := by
  refine ⟨rfl, recencyPoints_nonneg _, recencyPoints_le _,
    cadencePoints_nonneg _, cadencePoints_le _, ?_, ?_⟩
  · rw [chm_score_eq]; exact maintenanceScoreOf_nonneg _ _ _ _ _
  · rw [chm_score_eq]; exact maintenanceScoreOf_le _ _ _ _ _

lemma levelRec_bands (q : ℚ) :
    ((levelAndRecommendation q).1 = "excellent" ↔ 80 ≤ q)
    ∧ ((levelAndRecommendation q).1 = "good" ↔ 60 ≤ q ∧ q < 80)
    ∧ ((levelAndRecommendation q).1 = "fair" ↔ 40 ≤ q ∧ q < 60)
    ∧ ((levelAndRecommendation q).1 = "poor" ↔ 20 ≤ q ∧ q < 40)
    ∧ ((levelAndRecommendation q).1 = "critical" ↔ q < 20) := by
  unfold levelAndRecommendation
  split_ifs with h1 h2 h3 h4 <;>
    refine ⟨?_, ?_, ?_, ?_, ?_⟩ <;> simp_all <;> intros <;> linarith

lemma levelRec_pairs (q : ℚ) :
    ((levelAndRecommendation q).1, (levelAndRecommendation q).2)
      ∈ [("excellent", "This package is actively maintained with good development practices."),
         ("good", "Package shows regular maintenance and good health indicators."),
         ("fair", "Package is maintained but may have slower update cycles. Review before use."),
         ("poor", "WARNING: Package shows signs of poor maintenance. Consider alternatives."),
         ("critical", "CRITICAL: Package appears abandoned or unmaintained. Strongly consider alternatives.")] := by
  unfold levelAndRecommendation; split_ifs <;> simp

lemma levelRec_rec_nonempty (q : ℚ) : (levelAndRecommendation q).2 ≠ "" := by
  unfold levelAndRecommendation; split_ifs <;> decide

/-- C2: the maintenance level is a pure threshold function of the
maintenance score with lower-bound-inclusive bands (at least 80
excellent, at least 60 good, at least 40 fair, at least 20 poor, below
20 critical), the five bands partitioning the score range, and the level
always comes paired with its fixed non-empty recommendation text. -/
theorem c2_maintenance_level_bands (now : Int) (pkg : PackageInfo) :
    ((computeHealthMetrics now pkg).maintenanceLevel = "excellent"
        ↔ 80 ≤ (computeHealthMetrics now pkg).maintenanceScore)
    ∧ ((computeHealthMetrics now pkg).maintenanceLevel = "good"
        ↔ 60 ≤ (computeHealthMetrics now pkg).maintenanceScore
          ∧ (computeHealthMetrics now pkg).maintenanceScore < 80)
    ∧ ((computeHealthMetrics now pkg).maintenanceLevel = "fair"
        ↔ 40 ≤ (computeHealthMetrics now pkg).maintenanceScore
          ∧ (computeHealthMetrics now pkg).maintenanceScore < 60)
    ∧ ((computeHealthMetrics now pkg).maintenanceLevel = "poor"
        ↔ 20 ≤ (computeHealthMetrics now pkg).maintenanceScore
          ∧ (computeHealthMetrics now pkg).maintenanceScore < 40)
    ∧ ((computeHealthMetrics now pkg).maintenanceLevel = "critical"
        ↔ (computeHealthMetrics now pkg).maintenanceScore < 20)
    ∧ ((computeHealthMetrics now pkg).maintenanceLevel,
        (computeHealthMetrics now pkg).recommendation)
      ∈ [("excellent", "This package is actively maintained with good development practices."),
         ("good", "Package shows regular maintenance and good health indicators."),
         ("fair", "Package is maintained but may have slower update cycles. Review before use."),
         ("poor", "WARNING: Package shows signs of poor maintenance. Consider alternatives."),
         ("critical", "CRITICAL: Package appears abandoned or unmaintained. Strongly consider alternatives.")]
    ∧ (computeHealthMetrics now pkg).recommendation ≠ "" := by
  rw [chm_level_eq, chm_rec_eq]
  have hb := levelRec_bands (computeHealthMetrics now pkg).maintenanceScore
  exact ⟨hb.1, hb.2.1, hb.2.2.1, hb.2.2.2.1, hb.2.2.2.2,
    levelRec_pairs _, levelRec_rec_nonempty _⟩

/-- C9: checkBreakingChanges is true exactly when both version strings
are non-empty and their first bytes differ, and the planner exposes this
function verbatim as the breaking-changes flag of every plan. -/
theorem c9_breaking_changes_first_byte (c l : GoStr) :
    (checkBreakingChanges c l = true ↔ c ≠ [] ∧ l ≠ [] ∧ c.head? ≠ l.head?)
    ∧ (∀ (input : UpgradePlanInput) (vr : Option (List Vulnerability))
        (p : PackageInfo) (now : Int),
        (mkPlan input vr p now).breakingChanges
          = checkBreakingChanges input.currentVersion
              (computeHealthMetrics now p).latestVersion) := by
  constructor
  · cases c with
    | nil => simp [checkBreakingChanges]
    | cons a as =>
      cases l with
      | nil => simp [checkBreakingChanges]
      | cons b bs => simp [checkBreakingChanges, bne_iff_ne]
  · intro input vr p now; rfl

/-- C10: with zero version records the scan leaves the latest publish
instant at the zero time, daysSinceUpdate stays 0, the recency component
contributes its full 40 points, so the score is at least 40 and the
level is fair or good (never poor or critical; excellent is out of reach
because the cadence and license components also stay 0). -/
theorem c10_zero_versions_fresh (now : Int) (pkg : PackageInfo)
    (h : pkg.versions = []) :
    (computeHealthMetrics now pkg).daysSinceUpdate = 0
    ∧ 40 ≤ (computeHealthMetrics now pkg).maintenanceScore
    ∧ ((computeHealthMetrics now pkg).maintenanceLevel = "fair"
        ∨ (computeHealthMetrics now pkg).maintenanceLevel = "good")
    ∧ (computeHealthMetrics now pkg).maintenanceLevel ≠ "poor"
    ∧ (computeHealthMetrics now pkg).maintenanceLevel ≠ "critical" := by
  obtain ⟨pk, vs, lks⟩ := pkg
  dsimp only at h
  subst h
  cases hb1 : lks.any (fun l => l.label == "SOURCE_REPO" || l.label == "REPOSITORY") <;>
    cases hb2 : lks.any (fun l => l.label == "DOCUMENTATION") <;>
      simp [computeHealthMetrics, scanVersions, maintenanceScoreOf, recencyPoints,
        cadencePoints, levelAndRecommendation, hb1, hb2] <;>
      exact ⟨by decide, by decide⟩

/-- A package with a single flagged version published one nanosecond
after the Go zero time, used to exhibit the clock dependence of
ComputeHealthMetrics. -/
def pkgClock : PackageInfo :=
  ⟨⟨"npm", "clock-demo"⟩, [⟨gostr "1.0.0", 1, true, []⟩], []⟩

/-- C7 counterexample: ComputeHealthMetrics reads the wall clock through
time.Since, so two calls on the identical metadata value observed 400
days apart return different outputs (daysSinceUpdate 0 versus 400, and
consequently different scores and levels): the output is not a function
of the metadata alone. -/
theorem c7_counterexample :
    computeHealthMetrics 1 pkgClock ≠ computeHealthMetrics (1 + 400 * nsPerDay) pkgClock
    ∧ (computeHealthMetrics 1 pkgClock).daysSinceUpdate = 0
    ∧ (computeHealthMetrics (1 + 400 * nsPerDay) pkgClock).daysSinceUpdate = 400 := by
  refine ⟨?_, by decide, by decide⟩
  intro hcontra
  have := congrArg HealthMetrics.daysSinceUpdate hcontra
  revert this
  decide

/-- C7 amended: ComputeHealthMetrics is deterministic once the clock
reading is fixed; more precisely, two calls on identical metadata whose
clock readings yield the same daysSinceUpdate produce byte-identical
outputs, every other field being a function of the metadata alone. -/
theorem c7_deterministic_given_clock (t1 t2 : Int) (pkg : PackageInfo)
    (h : (computeHealthMetrics t1 pkg).daysSinceUpdate
          = (computeHealthMetrics t2 pkg).daysSinceUpdate) :
    computeHealthMetrics t1 pkg = computeHealthMetrics t2 pkg := by
  simp only [computeHealthMetrics] at h ⊢
  rw [h]

/-- Witness for the amended C7 at the concrete package above: observed at
instants 5 and 17 (both within the first day after publication) the
daysSinceUpdate values agree and the outputs coincide. -/
theorem c7_deterministic_witness :
    (computeHealthMetrics 5 pkgClock).daysSinceUpdate
        = (computeHealthMetrics 17 pkgClock).daysSinceUpdate
    ∧ computeHealthMetrics 5 pkgClock = computeHealthMetrics 17 pkgClock := by
  have h : (computeHealthMetrics 5 pkgClock).daysSinceUpdate
      = (computeHealthMetrics 17 pkgClock).daysSinceUpdate := by decide
  exact ⟨h, c7_deterministic_given_clock 5 17 pkgClock h⟩

/-- The no-version package used as the concrete instance of the
zero-version edge case. -/
def pkgNoVersions : PackageInfo :=
  ⟨⟨"npm", "ghost"⟩, [], [⟨"SOURCE_REPO", "https://example.invalid/repo"⟩]⟩

/-- Witness for C10 at a concrete zero-version package. -/
theorem c10_zero_versions_witness :
    pkgNoVersions.versions = []
    ∧ ((computeHealthMetrics 0 pkgNoVersions).daysSinceUpdate = 0
      ∧ 40 ≤ (computeHealthMetrics 0 pkgNoVersions).maintenanceScore
      ∧ ((computeHealthMetrics 0 pkgNoVersions).maintenanceLevel = "fair"
          ∨ (computeHealthMetrics 0 pkgNoVersions).maintenanceLevel = "good")
      ∧ (computeHealthMetrics 0 pkgNoVersions).maintenanceLevel ≠ "poor"
      ∧ (computeHealthMetrics 0 pkgNoVersions).maintenanceLevel ≠ "critical") :=
  ⟨rfl, c10_zero_versions_fresh 0 pkgNoVersions rfl⟩

lemma lastFlagged_init (vs : List VersionInfo) (a : Option VersionInfo) :
    vs.foldl (fun acc v => if v.isDefault then some v else acc) a
      = (lastFlagged vs).elim a some := by
  induction vs generalizing a with
  | nil => simp [lastFlagged]
  | cons v vs ih =>
    have hcons : lastFlagged (v :: vs)
        = vs.foldl (fun acc v => if v.isDefault then some v else acc)
            (if v.isDefault then some v else none) := rfl
    rw [List.foldl_cons, ih, hcons, ih]
    cases hL : lastFlagged vs <;> split_ifs <;> simp

lemma step_latestPub (lp : Int) (v : VersionInfo) :
    (if v.publishedAt > lp then v.publishedAt else lp) = max lp v.publishedAt := by
  simp only [max_def]; split_ifs <;> omega

lemma scanVersions_foldl (vs : List VersionInfo) (lv : GoStr) (lc : Nat) (lp : Int) :
    vs.foldl versionScanStep (lv, lc, lp)
      = ((lastFlagged vs).elim lv (fun v => v.version),
         (lastFlagged vs).elim lc (fun v => v.licenses.length),
         vs.foldl (fun a v => max a v.publishedAt) lp) := by
  induction vs generalizing lv lc lp with
  | nil => simp [lastFlagged]
  | cons v vs ih =>
    have hstep : versionScanStep (lv, lc, lp) v
        = (if v.isDefault then v.version else lv,
           if v.isDefault then v.licenses.length else lc,
           max lp v.publishedAt) := by
      simp only [versionScanStep, step_latestPub, apply_ite]
    have hcons : lastFlagged (v :: vs)
        = (lastFlagged vs).elim (if v.isDefault then some v else none) some := by
      have : lastFlagged (v :: vs)
          = vs.foldl (fun acc v => if v.isDefault then some v else acc)
              (if v.isDefault then some v else none) := rfl
      rw [this, lastFlagged_init]
    rw [List.foldl_cons, hstep, ih, List.foldl_cons, hcons]
    cases hL : lastFlagged vs <;> split_ifs <;> simp

/-- A package with two is-default-flagged version records: the first
flagged record is version 1.0.0 with one license, the second flagged
record is version 2.0.0 with no licenses. -/
def pkgTwoFlags : PackageInfo :=
  ⟨⟨"npm", "double-default"⟩,
   [⟨gostr "1.0.0", 1, true, ["MIT"]⟩, ⟨gostr "2.0.0", 2, true, []⟩],
   []⟩

/-- C8 counterexample: with two flagged records, ComputeHealthMetrics
reports the version and license count of the LAST flagged record
(2.0.0 and 0 licenses), not of the first flagged record (1.0.0 and one
license) that the claim names. -/
theorem c8_counterexample :
    (pkgTwoFlags.versions.find? (fun v => v.isDefault)).map
        (fun v => (v.version, v.licenses.length)) = some (gostr "1.0.0", 1)
    ∧ (computeHealthMetrics 2 pkgTwoFlags).latestVersion ≠ gostr "1.0.0"
    ∧ (computeHealthMetrics 2 pkgTwoFlags).licenseCount ≠ 1
    ∧ (computeHealthMetrics 2 pkgTwoFlags).latestVersion = gostr "2.0.0"
    ∧ (computeHealthMetrics 2 pkgTwoFlags).licenseCount = 0 := by
  refine ⟨by decide, ?_, by decide, by decide, by decide⟩
  intro hcontra
  revert hcontra
  decide

/-- C8 amended: when any number of records carry the is-default flag,
latestVersion and licenseCount come from the LAST flagged record the
scan encounters (empty and zero when no record is flagged), while the
most recent publish instant is folded over all records independently of
the flag. -/
theorem c8_last_flagged_wins (now : Int) (pkg : PackageInfo) :
    (computeHealthMetrics now pkg).latestVersion
        = (lastFlagged pkg.versions).elim [] (fun v => v.version)
    ∧ (computeHealthMetrics now pkg).licenseCount
        = (lastFlagged pkg.versions).elim 0 (fun v => v.licenses.length)
    ∧ (computeHealthMetrics now pkg).lastPublished
        = pkg.versions.foldl (fun a v => max a v.publishedAt) 0 := by
  have h := scanVersions_foldl pkg.versions [] 0 0
  have h1 : (computeHealthMetrics now pkg).latestVersion
      = (scanVersions pkg.versions).1 := rfl
  have h2 : (computeHealthMetrics now pkg).licenseCount
      = (scanVersions pkg.versions).2.1 := rfl
  have h3 : (computeHealthMetrics now pkg).lastPublished
      = (scanVersions pkg.versions).2.2 := rfl
  rw [h1, h2, h3]
  rw [show scanVersions pkg.versions = pkg.versions.foldl versionScanStep ([], 0, 0) from rfl, h]
  exact ⟨rfl, rfl, rfl⟩

lemma bumpSummary_eq_applyBucket (acc : VulnSummary) (v : Vulnerability) :
    bumpSummary acc v = applyBucket (bucketOf v) acc := by
  unfold bumpSummary bucketOf applyBucket
  dsimp only
  split_ifs <;> rfl

lemma foldl_bumpSummary (vs : List Vulnerability) (acc : VulnSummary) :
    vs.foldl bumpSummary acc =
      ⟨acc.critical + vs.countP (fun v => decide (bucketOf v = .critical)),
       acc.high + vs.countP (fun v => decide (bucketOf v = .high)),
       acc.medium + vs.countP (fun v => decide (bucketOf v = .medium)),
       acc.low + vs.countP (fun v => decide (bucketOf v = .low)),
       acc.unknown + vs.countP (fun v => decide (bucketOf v = .unknown))⟩ := by
  induction vs generalizing acc with
  | nil => simp [List.countP_nil]
  | cons v vs ih =>
    rw [List.foldl_cons, ih, bumpSummary_eq_applyBucket]
    cases hb : bucketOf v <;>
      simp [applyBucket, List.countP_cons, hb, VulnSummary.mk.injEq] <;> omega

lemma bucket_counts_cover (vs : List Vulnerability) :
    vs.countP (fun v => decide (bucketOf v = .critical))
      + vs.countP (fun v => decide (bucketOf v = .high))
      + vs.countP (fun v => decide (bucketOf v = .medium))
      + vs.countP (fun v => decide (bucketOf v = .low))
      + vs.countP (fun v => decide (bucketOf v = .unknown)) = vs.length := by
  induction vs with
  | nil => simp [List.countP_nil]
  | cons v vs ih =>
    simp only [List.countP_cons, List.length_cons]
    cases hb : bucketOf v <;> simp [hb] <;> omega

/-- C6: the severity summarizer classifies every vulnerability into
exactly one of the five buckets determined by the case-insensitive
substring tests against critical, high, medium, low in that precedence
applied to the first severity score string (an absent or empty severity
list falls into the unknown bucket, as does any string matching none of
the four patterns); each counter equals the number of vulnerabilities in
its bucket, and the five counters sum to the length of the input list. -/
theorem c6_vuln_summary_partitions (vs : List Vulnerability) :
    computeVulnSummary vs =
      ⟨vs.countP (fun v => decide (bucketOf v = .critical)),
       vs.countP (fun v => decide (bucketOf v = .high)),
       vs.countP (fun v => decide (bucketOf v = .medium)),
       vs.countP (fun v => decide (bucketOf v = .low)),
       vs.countP (fun v => decide (bucketOf v = .unknown))⟩
    ∧ (computeVulnSummary vs).critical + (computeVulnSummary vs).high
        + (computeVulnSummary vs).medium + (computeVulnSummary vs).low
        + (computeVulnSummary vs).unknown = vs.length
    ∧ (∀ (i s : String), bucketOf ⟨i, s, []⟩ = SeverityBucket.unknown) := by
  have h : computeVulnSummary vs =
      ⟨vs.countP (fun v => decide (bucketOf v = .critical)),
       vs.countP (fun v => decide (bucketOf v = .high)),
       vs.countP (fun v => decide (bucketOf v = .medium)),
       vs.countP (fun v => decide (bucketOf v = .low)),
       vs.countP (fun v => decide (bucketOf v = .unknown))⟩ := by
    unfold computeVulnSummary
    rw [foldl_bumpSummary]
    simp
  refine ⟨h, ?_, ?_⟩
  · rw [h]; exact bucket_counts_cover vs
  · intro i s
    rfl

/-- C3: with a successful vulnerability query returning at least one
vulnerability, the planner always reports priority URGENT, and the
recommendation cites the critical count when positive, else the high
count when positive, else the total vulnerability count. -/
theorem c3_vulns_mean_urgent (input : UpgradePlanInput) (vs : List Vulnerability)
    (p : PackageInfo) (now : Int)
    (hE : input.ecosystem ≠ "") (hP : input.packageName ≠ "")
    (hV : input.currentVersion ≠ []) (hvs : vs ≠ []) :
    planUpgrade input (some vs) (some p) now = .ok (mkPlan input (some vs) p now)
    ∧ (mkPlan input (some vs) p now).priority = "URGENT"
    ∧ (mkPlan input (some vs) p now).recommendation =
        (if 0 < (computeVulnSummary vs).critical then
          gostr "CRITICAL: Upgrade immediately! Found "
            ++ natStr (computeVulnSummary vs).critical
            ++ gostr " critical vulnerabilities in current version."
        else if 0 < (computeVulnSummary vs).high then
          gostr "URGENT: Upgrade to " ++ (computeHealthMetrics now p).latestVersion
            ++ gostr " to address " ++ natStr (computeVulnSummary vs).high
            ++ gostr " high-severity vulnerabilities."
        else
          gostr "URGENT: Upgrade to " ++ (computeHealthMetrics now p).latestVersion
            ++ gostr " to address " ++ natStr vs.length
            ++ gostr " known vulnerabilities.") := by
  have hlen : 0 < vs.length := List.length_pos.mpr hvs
  refine ⟨?_, ?_, ?_⟩
  · simp [planUpgrade, hE, hP, hV]
  · simp [mkPlan, hlen]
  · simp [mkPlan, hlen]

/-- The concrete input of scenario C: one vulnerability whose severity
score string is CRITICAL. -/
def inputC : UpgradePlanInput := ⟨"npm", "lodash", gostr "4.17.19"⟩

/-- The single-vulnerability list of scenario C. -/
def vulnsC : List Vulnerability :=
  [⟨"OSV-2020-0001", "prototype pollution", [⟨"CVSS_V3", gostr "CRITICAL"⟩]⟩]

/-- The package metadata used by the planner scenarios. -/
def pkgC : PackageInfo :=
  ⟨⟨"npm", "lodash"⟩, [⟨gostr "4.17.21", 1, true, ["MIT"]⟩],
   [⟨"SOURCE_REPO", "https://example.invalid/lodash"⟩]⟩

/-- Witness for C3 at scenario C: priority URGENT and a recommendation
citing a critical count of 1. -/
theorem c3_vulns_mean_urgent_witness :
    inputC.ecosystem ≠ "" ∧ inputC.packageName ≠ ""
    ∧ inputC.currentVersion ≠ [] ∧ vulnsC ≠ []
    ∧ planUpgrade inputC (some vulnsC) (some pkgC) 1
        = .ok (mkPlan inputC (some vulnsC) pkgC 1)
    ∧ (mkPlan inputC (some vulnsC) pkgC 1).priority = "URGENT"
    ∧ (mkPlan inputC (some vulnsC) pkgC 1).recommendation
        = gostr "CRITICAL: Upgrade immediately! Found 1 critical vulnerabilities in current version." := by
  have h := c3_vulns_mean_urgent inputC vulnsC pkgC 1
    (by decide) (by decide) (by decide) (by decide)
  exact ⟨by decide, by decide, by decide, by decide, h.1, h.2.1, h.2.2.trans (by decide)⟩

/-- C4: with no vulnerabilities and a current version different from the
latest, the planner decides priority by the strict precedence poor or
critical maintenance (WARNING), then staleness beyond 180 days (LOW),
then the breaking-change flag (MEDIUM), else RECOMMENDED; the
breaking-change flag itself is the first-byte heuristic. -/
theorem c4_not_up_to_date_precedence (input : UpgradePlanInput)
    (vulnResp : Option (List Vulnerability)) (p : PackageInfo) (now : Int)
    (hE : input.ecosystem ≠ "") (hP : input.packageName ≠ "")
    (hV : input.currentVersion ≠ []) (hnv : vulnResp.getD [] = [])
    (hup : input.currentVersion ≠ (computeHealthMetrics now p).latestVersion) :
    planUpgrade input vulnResp (some p) now = .ok (mkPlan input vulnResp p now)
    ∧ (mkPlan input vulnResp p now).breakingChanges
        = checkBreakingChanges input.currentVersion
            (computeHealthMetrics now p).latestVersion
    ∧ (mkPlan input vulnResp p now).priority =
        (if (computeHealthMetrics now p).maintenanceLevel = "poor"
            ∨ (computeHealthMetrics now p).maintenanceLevel = "critical" then
          "WARNING"
        else if 180 < (computeHealthMetrics now p).daysSinceUpdate then "LOW"
        else if checkBreakingChanges input.currentVersion
            (computeHealthMetrics now p).latestVersion then "MEDIUM"
        else "RECOMMENDED") := by
  refine ⟨?_, rfl, ?_⟩
  · simp [planUpgrade, hE, hP, hV]
  · simp only [mkPlan, hnv]
    simp [hup]
    split_ifs <;> rfl

/-- The concrete input of scenario E: current version 1.2.3 against
latest version 2.0.0. -/
def inputE : UpgradePlanInput := ⟨"npm", "demo", gostr "1.2.3"⟩

/-- The package of scenario E: latest version 2.0.0, published within the
last 180 days, scoring 70 (level good). -/
def pkgE : PackageInfo :=
  ⟨⟨"npm", "demo"⟩, [⟨gostr "2.0.0", 1, true, ["MIT"]⟩],
   [⟨"SOURCE_REPO", "https://example.invalid/demo"⟩]⟩

/-- Witness for C4 at scenario E: maintenance level good, daysSinceUpdate
at most 180, no vulnerabilities, so the first-byte difference of 1.2.3
versus 2.0.0 yields breakingChanges true and priority MEDIUM. -/
theorem c4_not_up_to_date_witness :
    inputE.ecosystem ≠ "" ∧ inputE.packageName ≠ ""
    ∧ inputE.currentVersion ≠ []
    ∧ (some ([] : List Vulnerability)).getD [] = []
    ∧ inputE.currentVersion ≠ (computeHealthMetrics 1 pkgE).latestVersion
    ∧ (computeHealthMetrics 1 pkgE).maintenanceLevel = "good"
    ∧ (computeHealthMetrics 1 pkgE).daysSinceUpdate ≤ 180
    ∧ (mkPlan inputE (some []) pkgE 1).breakingChanges = true
    ∧ (mkPlan inputE (some []) pkgE 1).priority = "MEDIUM" := by
  have h := c4_not_up_to_date_precedence inputE (some []) pkgE 1
    (by decide) (by decide) (by decide) (by decide) (by decide)
  refine ⟨by decide, by decide, by decide, by decide, by decide, by decide, by decide,
    ?_, h.2.2.trans (by decide)⟩
  exact h.2.1.trans (by decide)

/-- C5: with valid input, the planner yields an error exactly when the
metadata fetch fails; a failed vulnerability query is tolerated and the
resulting plan is identical to the one produced for a successful query
returning zero vulnerabilities, carrying hasVulnerabilities false,
vulnerability count 0 and no severity summary. -/
theorem c5_metadata_failure_only (input : UpgradePlanInput) (p : PackageInfo)
    (now : Int) (hE : input.ecosystem ≠ "") (hP : input.packageName ≠ "")
    (hV : input.currentVersion ≠ []) :
    planUpgrade input none (some p) now = planUpgrade input (some []) (some p) now
    ∧ planUpgrade input none (some p) now = .ok (mkPlan input none p now)
    ∧ (mkPlan input none p now).hasVulnerabilities = false
    ∧ (mkPlan input none p now).vulnerabilityCount = 0
    ∧ (mkPlan input none p now).vulnerabilitySummary = none
    ∧ (∀ vr : Option (List Vulnerability),
        ∃ plan, planUpgrade input vr (some p) now = .ok plan)
    ∧ planUpgrade input none none now = .error "Failed to query package info" := by
  refine ⟨rfl, ?_, rfl, rfl, rfl, ?_, ?_⟩
  · simp [planUpgrade, hE, hP, hV]
  · intro vr
    exact ⟨mkPlan input vr p now, by simp [planUpgrade, hE, hP, hV]⟩
  · simp [planUpgrade, hE, hP, hV]

/-- Witness for C5 at the scenario-C identifiers with an empty metadata
record. -/
theorem c5_metadata_failure_only_witness :
    inputC.ecosystem ≠ "" ∧ inputC.packageName ≠ "" ∧ inputC.currentVersion ≠ []
    ∧ planUpgrade inputC none (some pkgC) 1 = planUpgrade inputC (some []) (some pkgC) 1
    ∧ (mkPlan inputC none pkgC 1).hasVulnerabilities = false
    ∧ (mkPlan inputC none pkgC 1).vulnerabilityCount = 0
    ∧ (mkPlan inputC none pkgC 1).vulnerabilitySummary = none
    ∧ planUpgrade inputC none none 1 = .error "Failed to query package info" := by
  have h := c5_metadata_failure_only inputC pkgC 1 (by decide) (by decide) (by decide)
  exact ⟨by decide, by decide, by decide, h.1, h.2.2.1, h.2.2.2.1, h.2.2.2.2.1,
    h.2.2.2.2.2.2⟩

end PackagePulse
